import Mathlib

/-!
Verification of `monitor.py`, a VIX/vStoxx spread monitor.

Shallow embedding conventions:
* Python `float` prices are modelled as `ℚ`; `pandas` NaN cells are `Option ℚ`
  with `none` for a missing value.
* `datetime.date` is reduced to the one field the program reads, `day`.
* Network effects are made explicit: each remote call is a function from the
  attempt number to the data that attempt would observe, and the retry loops
  return a trace recording the final result, the back-off sleeps performed and
  the number of attempts made.
* Reads of the system clock (`date.today()`) are threaded in as explicit
  inputs (`today`, `todayStr` in `Env`), one per call site in the source.
-/

namespace VixMonitor

/-- The slice of Python `datetime.date` that `monitor.py` reads: `.day`,
the day of the month (1-31 for a real date). -/
structure Date where
  day : Nat
  deriving DecidableEq

/-- `EU_CRISIS_THRESHOLD = 10.0`: skip entry if vStoxx − VIX exceeds this. -/
def EU_CRISIS_THRESHOLD : ℚ := 10

/-- `VSTOXX_PER_VIX = 8`: dollar-neutral ratio. -/
def VSTOXX_PER_VIX : Nat := 8

/-- `WEEK_ONE_MAX_DAY = 7`: days 1-7 of the month define week 1. -/
def WEEK_ONE_MAX_DAY : Nat := 7

/-- `RETRIES = 3`. -/
def RETRIES : Nat := 3

/-- `RETRY_DELAY = 5` seconds (multiplied by attempt number). -/
def RETRY_DELAY : Nat := 5

/-- `is_week_one(today)`: `today.day <= WEEK_ONE_MAX_DAY`.  The Python
default `today=None` reads the clock; callers here always pass the date. -/
def is_week_one (today : Date) : Bool :=
  decide (today.day ≤ WEEK_ONE_MAX_DAY)

/-- The result dict returned by `evaluate`, with its four keys. -/
structure Verdict where
  spread : ℚ
  eu_crisis : Bool
  week_one : Bool
  enter : Bool
  deriving DecidableEq

/-- `evaluate(vix, vstoxx, today)` from `monitor.py`:
`spread = vstoxx - vix`, `eu_crisis = spread > EU_CRISIS_THRESHOLD`,
`week_one = is_week_one(today)`, `enter = week_one and not eu_crisis`. -/
def evaluate (vix vstoxx : ℚ) (today : Date) : Verdict :=
  let spread := vstoxx - vix
  let eu_crisis := decide (EU_CRISIS_THRESHOLD < spread)
  let week_one := is_week_one today
  let enter := week_one && !eu_crisis
  ⟨spread, eu_crisis, week_one, enter⟩

/-- Round a rational to the nearest integer, ties to even — the rounding used
by Python `format` on an exactly-representable value. -/
def roundHalfEven (q : ℚ) : ℤ :=
  let f := q.floor
  let r := q - (f : ℚ)
  if r < 1/2 then f
  else if 1/2 < r then f + 1
  else if f % 2 = 0 then f else f + 1

/-- Two-digit zero-padded print of a Nat below 100. -/
def natPad2 (n : Nat) : String :=
  if n < 10 then "0" ++ toString n else toString n

/-- Python `f"{q:.2f}"`: fixed two decimals (sign only when negative). -/
def fmtFixed2 (q : ℚ) : String :=
  let n := roundHalfEven (q * 100)
  (if n < 0 ∨ (n = 0 ∧ q < 0) then "-" else "")
    ++ (toString (n.natAbs / 100) ++ ("." ++ natPad2 (n.natAbs % 100)))

/-- Python `f"{q:+.2f}"`: fixed two decimals with an explicit sign. -/
def fmtSigned2 (q : ℚ) : String :=
  let n := roundHalfEven (q * 100)
  (if n < 0 ∨ (n = 0 ∧ q < 0) then "-" else "+")
    ++ (toString (n.natAbs / 100) ++ ("." ++ natPad2 (n.natAbs % 100)))

/-- Python `f"{q:.0f}"`: rounded to an integer. -/
def fmtFixed0 (q : ℚ) : String :=
  let n := roundHalfEven q
  (if n < 0 ∨ (n = 0 ∧ q < 0) then "-" else "") ++ toString n.natAbs

/-- The `ENTER TRADE` verdict block of `build_message`. -/
def enterBlock : List String :=
  [ "━━━━━━━━━━━━━━━━━━━━━━━",
    "🟢 <b>ENTER TRADE</b>",
    "   • Short  <b>1×</b>  VIX futures   (^VIX)",
    "   • Long   <b>" ++ (toString VSTOXX_PER_VIX ++ "×</b>  vStoxx futures (^V2TX)"),
    "   • Dollar-neutral position",
    "━━━━━━━━━━━━━━━━━━━━━━━" ]

/-- The `NO SIGNAL` verdict block of `build_message`. -/
def noSignalBlock : List String :=
  [ "━━━━━━━━━━━━━━━━━━━━━━━",
    "⏳ <b>NO SIGNAL</b> — not in entry week",
    "   Wait for week 1 of next month",
    "━━━━━━━━━━━━━━━━━━━━━━━" ]

/-- The `SKIP ENTRY` verdict block of `build_message`. -/
def skipBlock (spread : ℚ) : List String :=
  [ "━━━━━━━━━━━━━━━━━━━━━━━",
    "🔴 <b>SKIP ENTRY</b> — EU crisis filter active",
    "   Spread (" ++ (fmtSigned2 spread
      ++ (") exceeds threshold (" ++ (fmtFixed0 EU_CRISIS_THRESHOLD ++ ")"))),
    "   Monitor daily; re-assess when spread normalises",
    "━━━━━━━━━━━━━━━━━━━━━━━" ]

/-- The final `if result["enter"] / elif not result["week_one"] / else` of
`build_message`, choosing which verdict block is appended. -/
def verdictBlock (result : Verdict) : List String :=
  if result.enter then enterBlock
  else if !result.week_one then noSignalBlock
  else skipBlock result.spread

/-- Everything `build_message` appends to `lines` before the verdict block:
the header, the two prices, the spread, the week-1 status line and the
EU-crisis filter line.  `today_str` is the string the source computes as
`date.today().strftime("%A, %d %b %Y")` — a clock read inside the
formatter, made explicit here as an input. -/
def headerLines (vix vstoxx : ℚ) (result : Verdict) (today_str : String) :
    List String :=
  [ "📊 <b>VIX / vStoxx Monitor</b>",
    "📅 " ++ today_str,
    "",
    "  VIX    (^VIX):  <b>" ++ (fmtFixed2 vix ++ "</b>"),
    "  vStoxx (^V2TX): <b>" ++ (fmtFixed2 vstoxx ++ "</b>"),
    "  Spread (vStoxx − VIX): <b>" ++ (fmtSigned2 result.spread ++ "</b>"),
    "" ]
  ++ [ if result.week_one then "📅 Week 1 of month: ✅ YES — entry window open"
       else "📅 Week 1 of month: ⏳ NO  — wait for next week 1" ]
  ++ [ if result.eu_crisis then
         "⚠️  EU Crisis filter: 🔴 TRIGGERED  (spread "
           ++ (fmtSigned2 result.spread
             ++ (" > " ++ (fmtFixed0 EU_CRISIS_THRESHOLD ++ ")")))
       else
         "🛡️  EU Crisis filter: ✅ CLEAR  (spread "
           ++ (fmtSigned2 result.spread
             ++ (" ≤ " ++ (fmtFixed0 EU_CRISIS_THRESHOLD ++ ")"))) ]
  ++ [""]

/-- The full `lines` list of `build_message`. -/
def buildMessageLines (vix vstoxx : ℚ) (result : Verdict) (today_str : String) :
    List String :=
  headerLines vix vstoxx result today_str ++ verdictBlock result

/-- `build_message(vix, vstoxx, result)` = `"\n".join(lines)`.  The source
reads `date.today()` inside the function; that read is the `today_str`
argument here. -/
def build_message (vix vstoxx : ℚ) (result : Verdict) (today_str : String) :
    String :=
  String.intercalate "\n" (buildMessageLines vix vstoxx result today_str)

/-- One attempt of `fetch_vix`: `closes` is the `Close` column of the frame
`yf.download` returned (NaN cells as `none`).  Raise on an empty frame,
drop NaNs, raise if nothing is left, else return the last close. -/
def fetchVixAttempt (closes : List (Option ℚ)) : Except String ℚ :=
  if closes = [] then Except.error "No data returned for ^VIX"
  else
    match (closes.filterMap id).getLast? with
    | none => Except.error "Close column empty for ^VIX"
    | some v => Except.ok v

/-- One row of the stooq CSV: a date and a possibly-missing close. -/
structure StooqRow where
  date : String
  close : Option ℚ
  deriving DecidableEq

/-- One attempt's view of the stooq response: whether `raise_for_status`
passes, whether a `Close` column is present, and the parsed rows. -/
structure StooqResponse where
  httpOk : Bool
  hasCloseColumn : Bool
  rows : List StooqRow
  deriving DecidableEq

/-- One attempt of `fetch_vstoxx`: raise on HTTP error, raise if the frame is
empty or has no `Close` column, keep rows with `Close > 0` (a NaN close fails
the comparison, so `dropna` is subsumed), raise if none remain, else return
the last remaining close. -/
def fetchVstoxxAttempt (resp : StooqResponse) : Except String ℚ :=
  if resp.httpOk = false then Except.error "HTTP error from stooq"
  else if resp.rows = [] ∨ resp.hasCloseColumn = false then
    Except.error "Unexpected stooq response format"
  else
    match (resp.rows.filterMap (fun row =>
        match row.close with
        | some c => if 0 < c then some c else none
        | none => none)).getLast? with
    | none => Except.error "No valid vStoxx prices returned from stooq"
    | some c => Except.ok c

/-- Trace of one retry loop: final result, the back-off sleeps performed (in
seconds, in order), and how many attempts were made. -/
structure RetryTrace (α : Type) where
  result : Except String α
  sleeps : List Nat
  attemptsMade : Nat

/-- The body of `for attempt in range(1, RETRIES + 1)` with
`if attempt < RETRIES: time.sleep(RETRY_DELAY * attempt) else: raise`.
`remaining` is `RETRIES - attempt`, the number of retries still allowed. -/
def runAttemptsAux {α : Type} (op : Nat → Except String α) :
    Nat → Nat → RetryTrace α
  | attempt, remaining =>
    match op attempt with
    | Except.ok v => ⟨Except.ok v, [], 1⟩
    | Except.error e =>
      match remaining with
      | 0 => ⟨Except.error e, [], 1⟩
      | r + 1 =>
        let t := runAttemptsAux op (attempt + 1) r
        ⟨t.result, RETRY_DELAY * attempt :: t.sleeps, 1 + t.attemptsMade⟩

/-- Run a retried operation starting at attempt 1 with `RETRIES - 1` retries
left, exactly as both fetchers and the Telegram sender do. -/
def retryCall {α : Type} (op : Nat → Except String α) : RetryTrace α :=
  runAttemptsAux op 1 (RETRIES - 1)

/-- `fetch_vix()`: the retry loop around `fetchVixAttempt`; `data` gives the
frame each attempt would download. -/
def fetch_vix (data : Nat → List (Option ℚ)) : RetryTrace ℚ :=
  retryCall (fun attempt => fetchVixAttempt (data attempt))

/-- `fetch_vstoxx()`: the retry loop around `fetchVstoxxAttempt`. -/
def fetch_vstoxx (data : Nat → StooqResponse) : RetryTrace ℚ :=
  retryCall (fun attempt => fetchVstoxxAttempt (data attempt))

/-- `send_telegram(bot_token, chat_id, text)`: the same retry loop around the
HTTP POST; `post` gives each attempt's outcome (the receipt is opaque). -/
def send_telegram (post : Nat → Except String Unit) : RetryTrace Unit :=
  retryCall post

/-- An outbound network call made during a run. -/
inductive NetAction where
  | vixAttempt (attempt : Nat)
  | vstoxxAttempt (attempt : Nat)
  | telegramPost (text : String) (attempt : Nat)
  deriving DecidableEq

/-- Python truthiness of `os.getenv`: `None` and `""` are falsy. -/
def truthy (s : Option String) : Bool :=
  match s with
  | none => false
  | some v => !v.isEmpty

/-- The ambient world of one run of `main`: the environment variables, what
each fetch attempt would observe, each Telegram post's outcome (by message
text and attempt number), and the two clock reads. -/
structure Env where
  bot_token : Option String
  chat_id : Option String
  vixData : Nat → List (Option ℚ)
  vstoxxData : Nat → StooqResponse
  sendOutcome : String → Nat → Except String Unit
  today : Date
  todayStr : String

/-- The network actions of `n` attempts of one resilient call. -/
def attemptActions (mk : Nat → NetAction) (n : Nat) : List NetAction :=
  (List.range n).map (fun i => mk (i + 1))

/-- The error text `main` sends on the error path:
`f"⚠️ VIX/vStoxx monitor error: {exc}"`. -/
def monitorErrorText (e : String) : String :=
  "⚠️ VIX/vStoxx monitor error: " ++ e

/-- The posts made by the best-effort error notification in `main`'s
`except` block; its own failure is swallowed (result ignored). -/
def errorNotifyActions (env : Env) (e : String) : List NetAction :=
  attemptActions (NetAction.telegramPost (monitorErrorText e))
    (send_telegram (env.sendOutcome (monitorErrorText e))).attemptsMade

/-- `main()`: returns the process exit code (0 on success; Python falls off
the end of `main`, 1 via `sys.exit(1)` on the error path, 2 via `sys.exit(2)`
on missing configuration) together with the outbound network calls made, in
order. -/
def main (env : Env) : Nat × List NetAction :=
  if truthy env.bot_token = false ∨ truthy env.chat_id = false then (2, [])
  else
    let fv := fetch_vix env.vixData
    let aV := attemptActions NetAction.vixAttempt fv.attemptsMade
    match fv.result with
    | Except.error e => (1, aV ++ errorNotifyActions env e)
    | Except.ok vix =>
      let fs := fetch_vstoxx env.vstoxxData
      let aS := attemptActions NetAction.vstoxxAttempt fs.attemptsMade
      match fs.result with
      | Except.error e => (1, aV ++ (aS ++ errorNotifyActions env e))
      | Except.ok vstoxx =>
        let result := evaluate vix vstoxx env.today
        let message := build_message vix vstoxx result env.todayStr
        let sm := send_telegram (env.sendOutcome message)
        let aM := attemptActions (NetAction.telegramPost message) sm.attemptsMade
        match sm.result with
        | Except.ok _ => (0, aV ++ (aS ++ aM))
        | Except.error e => (1, aV ++ (aS ++ (aM ++ errorNotifyActions env e)))

/-! ### Helper lemmas: the retry loop -/

lemma retryCall_ok1 {α : Type} (op : Nat → Except String α) (v : α)
    (h1 : op 1 = Except.ok v) : retryCall op = ⟨Except.ok v, [], 1⟩ := by
  show runAttemptsAux op 1 2 = _
  simp [runAttemptsAux, h1]

lemma retryCall_ok2 {α : Type} (op : Nat → Except String α) (e1 : String) (v : α)
    (h1 : op 1 = Except.error e1) (h2 : op 2 = Except.ok v) :
    retryCall op = ⟨Except.ok v, [5], 2⟩ := by
  show runAttemptsAux op 1 2 = _
  simp [runAttemptsAux, h1, h2, RETRY_DELAY]

lemma retryCall_ok3 {α : Type} (op : Nat → Except String α) (e1 e2 : String) (v : α)
    (h1 : op 1 = Except.error e1) (h2 : op 2 = Except.error e2)
    (h3 : op 3 = Except.ok v) :
    retryCall op = ⟨Except.ok v, [5, 10], 3⟩ := by
  show runAttemptsAux op 1 2 = _
  simp [runAttemptsAux, h1, h2, h3, RETRY_DELAY]

lemma retryCall_error {α : Type} (op : Nat → Except String α) (e1 e2 e3 : String)
    (h1 : op 1 = Except.error e1) (h2 : op 2 = Except.error e2)
    (h3 : op 3 = Except.error e3) :
    retryCall op = ⟨Except.error e3, [5, 10], 3⟩ := by
  show runAttemptsAux op 1 2 = _
  simp [runAttemptsAux, h1, h2, h3, RETRY_DELAY]

lemma retryCall_shape {α : Type} (op : Nat → Except String α) :
    (retryCall op).attemptsMade ≤ RETRIES ∧
    (retryCall op).sleeps =
      (List.range ((retryCall op).attemptsMade - 1)).map
        (fun k => RETRY_DELAY * (k + 1)) := by
  cases h1 : op 1 with
  | ok v =>
    rw [retryCall_ok1 op v h1]
    exact ⟨by show (1 : Nat) ≤ RETRIES; decide,
           by show ([] : List Nat) = (List.range (1 - 1)).map fun k => RETRY_DELAY * (k + 1); decide⟩
  | error e1 =>
    cases h2 : op 2 with
    | ok v =>
      rw [retryCall_ok2 op e1 v h1 h2]
      exact ⟨by show (2 : Nat) ≤ RETRIES; decide,
             by show [5] = (List.range (2 - 1)).map fun k => RETRY_DELAY * (k + 1); decide⟩
    | error e2 =>
      cases h3 : op 3 with
      | ok v =>
        rw [retryCall_ok3 op e1 e2 v h1 h2 h3]
        exact ⟨by show (3 : Nat) ≤ RETRIES; decide,
               by show [5, 10] = (List.range (3 - 1)).map fun k => RETRY_DELAY * (k + 1); decide⟩
      | error e3 =>
        rw [retryCall_error op e1 e2 e3 h1 h2 h3]
        exact ⟨by show (3 : Nat) ≤ RETRIES; decide,
               by show [5, 10] = (List.range (3 - 1)).map fun k => RETRY_DELAY * (k + 1); decide⟩

lemma retryCall_ok_exists {α : Type} (op : Nat → Except String α) (v : α)
    (h : (retryCall op).result = Except.ok v) : ∃ k, op k = Except.ok v := by
  cases h1 : op 1 with
  | ok w => rw [retryCall_ok1 op w h1] at h; exact ⟨1, h1.trans h⟩
  | error e1 =>
    cases h2 : op 2 with
    | ok w => rw [retryCall_ok2 op e1 w h1 h2] at h; exact ⟨2, h2.trans h⟩
    | error e2 =>
      cases h3 : op 3 with
      | ok w => rw [retryCall_ok3 op e1 e2 w h1 h2 h3] at h; exact ⟨3, h3.trans h⟩
      | error e3 => rw [retryCall_error op e1 e2 e3 h1 h2 h3] at h; exact absurd h (by simp)

/-! ### Helper lemmas: strings and the message blocks -/

/-- The first character of a string, used to separate the fixed message lines
from the formatted ones. -/
def firstChar (s : String) : Option Char := s.data.head?

lemma firstChar_append_left (p s : String) (hp : p.data ≠ []) :
    firstChar (p ++ s) = firstChar p := by
  unfold firstChar
  rw [String.data_append]
  cases hd : p.data with
  | nil => exact absurd hd hp
  | cons a t => simp

lemma ne_of_firstChar {a b : String} (h : firstChar a ≠ firstChar b) : a ≠ b :=
  fun he => h (congrArg firstChar he)

lemma headerLines_heads (v x : ℚ) (r : Verdict) (d l : String)
    (hl : l ∈ headerLines v x r d) :
    firstChar l = some '📊' ∨ firstChar l = some '📅' ∨ firstChar l = some ' '
      ∨ firstChar l = some '⚠' ∨ firstChar l = some '🛡' ∨ firstChar l = none := by
  unfold headerLines at hl
  simp only [List.mem_append, List.mem_cons, List.not_mem_nil, or_false] at hl
  rcases hl with (((h | h | h | h | h | h | h) | h) | h) | h
  · subst h; exact Or.inl (by decide)
  · subst h
    refine Or.inr (Or.inl ?_)
    rw [firstChar_append_left _ _ (by decide)]; decide
  · subst h; exact Or.inr (Or.inr (Or.inr (Or.inr (Or.inr (by decide)))))
  · subst h
    refine Or.inr (Or.inr (Or.inl ?_))
    rw [firstChar_append_left _ _ (by decide)]; decide
  · subst h
    refine Or.inr (Or.inr (Or.inl ?_))
    rw [firstChar_append_left _ _ (by decide)]; decide
  · subst h
    refine Or.inr (Or.inr (Or.inl ?_))
    rw [firstChar_append_left _ _ (by decide)]; decide
  · subst h; exact Or.inr (Or.inr (Or.inr (Or.inr (Or.inr (by decide)))))
  · cases hw : r.week_one <;> rw [hw] at h <;> simp at h <;>
      subst h <;> exact Or.inr (Or.inl (by decide))
  · cases hc : r.eu_crisis <;> rw [hc] at h <;> simp at h
    · subst h
      refine Or.inr (Or.inr (Or.inr (Or.inr (Or.inl ?_))))
      rw [firstChar_append_left _ _ (by decide)]; decide
    · subst h
      refine Or.inr (Or.inr (Or.inr (Or.inl ?_)))
      rw [firstChar_append_left _ _ (by decide)]; decide
  · subst h; exact Or.inr (Or.inr (Or.inr (Or.inr (Or.inr (by decide)))))

lemma not_mem_headerLines (v x : ℚ) (r : Verdict) (d m : String) (c : Char)
    (hm : firstChar m = some c)
    (h1 : c ≠ '📊') (h2 : c ≠ '📅') (h3 : c ≠ ' ') (h4 : c ≠ '⚠') (h5 : c ≠ '🛡') :
    m ∉ headerLines v x r d := by
  intro hmem
  rcases headerLines_heads v x r d m hmem with e | e | e | e | e | e
  · exact h1 (by rw [hm] at e; exact Option.some.inj e)
  · exact h2 (by rw [hm] at e; exact Option.some.inj e)
  · exact h3 (by rw [hm] at e; exact Option.some.inj e)
  · exact h4 (by rw [hm] at e; exact Option.some.inj e)
  · exact h5 (by rw [hm] at e; exact Option.some.inj e)
  · rw [hm] at e; exact Option.noConfusion e

lemma enterMarker_not_mem_skipBlock (s : ℚ) :
    "🟢 <b>ENTER TRADE</b>" ∉ skipBlock s := by
  have hvar : ("🟢 <b>ENTER TRADE</b>" : String) ≠
      "   Spread (" ++ (fmtSigned2 s
        ++ (") exceeds threshold (" ++ (fmtFixed0 EU_CRISIS_THRESHOLD ++ ")"))) :=
    ne_of_firstChar (by rw [firstChar_append_left _ _ (by decide)]; decide)
  simp [skipBlock, hvar]

lemma noSigMarker_not_mem_skipBlock (s : ℚ) :
    "⏳ <b>NO SIGNAL</b> — not in entry week" ∉ skipBlock s := by
  have hvar : ("⏳ <b>NO SIGNAL</b> — not in entry week" : String) ≠
      "   Spread (" ++ (fmtSigned2 s
        ++ (") exceeds threshold (" ++ (fmtFixed0 EU_CRISIS_THRESHOLD ++ ")"))) :=
    ne_of_firstChar (by rw [firstChar_append_left _ _ (by decide)]; decide)
  simp [skipBlock, hvar]

lemma skipMarker_mem_skipBlock (s : ℚ) :
    "🔴 <b>SKIP ENTRY</b> — EU crisis filter active" ∈ skipBlock s := by
  simp [skipBlock]

lemma enterBlock_ne_noSignalBlock : enterBlock ≠ noSignalBlock := by decide

lemma enterBlock_ne_skipBlock (s : ℚ) : enterBlock ≠ skipBlock s := by
  intro h
  have h1 := congrArg (fun l => l.get? 1) h
  simp only [enterBlock, skipBlock, List.get?] at h1
  exact absurd h1 (by decide)

lemma noSignalBlock_ne_skipBlock (s : ℚ) : noSignalBlock ≠ skipBlock s := by
  intro h
  have h1 := congrArg (fun l => l.get? 1) h
  simp only [noSignalBlock, skipBlock, List.get?] at h1
  exact absurd h1 (by decide)

lemma noSignalBlock_ne_enterBlock : noSignalBlock ≠ enterBlock :=
  Ne.symm enterBlock_ne_noSignalBlock

lemma skipBlock_ne_enterBlock (s : ℚ) : skipBlock s ≠ enterBlock :=
  Ne.symm (enterBlock_ne_skipBlock s)

lemma skipBlock_ne_noSignalBlock (s : ℚ) : skipBlock s ≠ noSignalBlock :=
  Ne.symm (noSignalBlock_ne_skipBlock s)

/-! ### The claims -/

/-- C1: for every pair of prices and every (valid) date, `evaluate` returns a
verdict with `spread = vstoxx - vix`, `eu_crisis` true iff the spread is
strictly greater than 10.0 (a spread of exactly 10.0 is not a crisis),
`week_one` true iff the day of month is between 1 and 7 inclusive, and
`enter` true iff `week_one` holds and `eu_crisis` does not. -/
theorem claim_C1 (vix vstoxx : ℚ) (today : Date) (h : 1 ≤ today.day) :
    (evaluate vix vstoxx today).spread = vstoxx - vix
    ∧ ((evaluate vix vstoxx today).eu_crisis = true ↔ (10 : ℚ) < vstoxx - vix)
    ∧ ((evaluate vix vstoxx today).week_one = true
        ↔ (1 ≤ today.day ∧ today.day ≤ 7))
    ∧ ((evaluate vix vstoxx today).enter = true
        ↔ ((evaluate vix vstoxx today).week_one = true
            ∧ (evaluate vix vstoxx today).eu_crisis = false)) := by
  refine ⟨rfl, ?_, ?_, ?_⟩
  · simp [evaluate, EU_CRISIS_THRESHOLD]
  · simp only [evaluate, is_week_one, WEEK_ONE_MAX_DAY, decide_eq_true_eq]
    constructor
    · intro hle; exact ⟨h, hle⟩
    · intro hb; exact hb.2
  · simp [evaluate, Bool.and_eq_true]

/-- Witness for C1 at `vix = 15`, `vstoxx = 18`, day 3. -/
theorem claim_C1_witness :
    (evaluate 15 18 ⟨3⟩).spread = 18 - 15
    ∧ ((evaluate 15 18 ⟨3⟩).eu_crisis = true ↔ (10 : ℚ) < 18 - 15)
    ∧ ((evaluate 15 18 ⟨3⟩).week_one = true
        ↔ (1 ≤ (⟨3⟩ : Date).day ∧ (⟨3⟩ : Date).day ≤ 7))
    ∧ ((evaluate 15 18 ⟨3⟩).enter = true
        ↔ ((evaluate 15 18 ⟨3⟩).week_one = true
            ∧ (evaluate 15 18 ⟨3⟩).eu_crisis = false)) :=
  claim_C1 15 18 ⟨3⟩ (by decide)

/-- C2: every verdict `evaluate` produces falls in exactly one of the three
outcome classes — enter (`enter`), skip-crisis (`week_one ∧ eu_crisis`),
no-signal (`¬week_one`) — and the formatter's final branch selects exactly
the corresponding verdict block. -/
theorem claim_C2 (vix vstoxx : ℚ) (today : Date) :
    (((evaluate vix vstoxx today).enter = true
        ∧ ¬((evaluate vix vstoxx today).week_one = true
            ∧ (evaluate vix vstoxx today).eu_crisis = true)
        ∧ (evaluate vix vstoxx today).week_one ≠ false)
      ∨ ((evaluate vix vstoxx today).enter ≠ true
        ∧ ((evaluate vix vstoxx today).week_one = true
            ∧ (evaluate vix vstoxx today).eu_crisis = true)
        ∧ (evaluate vix vstoxx today).week_one ≠ false)
      ∨ ((evaluate vix vstoxx today).enter ≠ true
        ∧ ¬((evaluate vix vstoxx today).week_one = true
            ∧ (evaluate vix vstoxx today).eu_crisis = true)
        ∧ (evaluate vix vstoxx today).week_one = false))
    ∧ (verdictBlock (evaluate vix vstoxx today) = enterBlock
        ↔ (evaluate vix vstoxx today).enter = true)
    ∧ (verdictBlock (evaluate vix vstoxx today)
          = skipBlock (evaluate vix vstoxx today).spread
        ↔ ((evaluate vix vstoxx today).week_one = true
            ∧ (evaluate vix vstoxx today).eu_crisis = true))
    ∧ (verdictBlock (evaluate vix vstoxx today) = noSignalBlock
        ↔ (evaluate vix vstoxx today).week_one = false) := by
  cases hw : is_week_one today <;>
    cases hc : decide (EU_CRISIS_THRESHOLD < vstoxx - vix) <;>
      simp [evaluate, verdictBlock, hw, hc, enterBlock_ne_noSignalBlock,
        enterBlock_ne_skipBlock, noSignalBlock_ne_skipBlock,
        noSignalBlock_ne_enterBlock, skipBlock_ne_enterBlock,
        skipBlock_ne_noSignalBlock]

/-- C9: `evaluate` is pure and deterministic — equal inputs give identical
results.  It is also total: its type returns a `Verdict` outright, with no
error channel, mirroring the Python function's absence of failure modes. -/
theorem claim_C9 (v v' x x' : ℚ) (t t' : Date)
    (hv : v = v') (hx : x = x') (ht : t = t') :
    evaluate v x t = evaluate v' x' t' := by
  subst hv; subst hx; subst ht; rfl

/-- Witness for C9 at `vix = 15`, `vstoxx = 18`, day 3. -/
theorem claim_C9_witness : evaluate 15 18 ⟨3⟩ = evaluate 15 18 ⟨3⟩ :=
  claim_C9 15 15 18 18 ⟨3⟩ ⟨3⟩ rfl rfl rfl

/-- C10: for every result dict — including inconsistent field combinations
`evaluate` never produces — the message contains exactly one of the three
verdict block marker lines, with the source's precedence: the ENTER block
whenever `enter` is true (even if `week_one` is false), otherwise the
NO SIGNAL block whenever `week_one` is false, otherwise the SKIP ENTRY
block. -/
theorem claim_C10 (v x : ℚ) (r : Verdict) (d : String) :
    ("🟢 <b>ENTER TRADE</b>" ∈ buildMessageLines v x r d ↔ r.enter = true)
    ∧ ("⏳ <b>NO SIGNAL</b> — not in entry week" ∈ buildMessageLines v x r d
        ↔ (r.enter = false ∧ r.week_one = false))
    ∧ ("🔴 <b>SKIP ENTRY</b> — EU crisis filter active" ∈ buildMessageLines v x r d
        ↔ (r.enter = false ∧ r.week_one = true)) := by
  have hE := not_mem_headerLines v x r d "🟢 <b>ENTER TRADE</b>" '🟢'
    (by decide) (by decide) (by decide) (by decide) (by decide) (by decide)
  have hN := not_mem_headerLines v x r d "⏳ <b>NO SIGNAL</b> — not in entry week" '⏳'
    (by decide) (by decide) (by decide) (by decide) (by decide) (by decide)
  have hS := not_mem_headerLines v x r d
    "🔴 <b>SKIP ENTRY</b> — EU crisis filter active" '🔴'
    (by decide) (by decide) (by decide) (by decide) (by decide) (by decide)
  have hL2 : ("⏳ <b>NO SIGNAL</b> — not in entry week" : String) ≠
      "   • Long   <b>" ++ (toString VSTOXX_PER_VIX ++ "×</b>  vStoxx futures (^V2TX)") := by
    decide
  have hL3 : ("🔴 <b>SKIP ENTRY</b> — EU crisis filter active" : String) ≠
      "   • Long   <b>" ++ (toString VSTOXX_PER_VIX ++ "×</b>  vStoxx futures (^V2TX)") := by
    decide
  unfold buildMessageLines
  cases he : r.enter <;> cases hw : r.week_one <;>
    simp [verdictBlock, he, hw, List.mem_append, hE, hN, hS, hL2, hL3,
      enterMarker_not_mem_skipBlock, noSigMarker_not_mem_skipBlock,
      skipMarker_mem_skipBlock, enterBlock, noSignalBlock]

/-- C3: both the fetcher and the notifier make at most 3 attempts per call;
between attempt `k` and `k+1` they sleep `RETRY_DELAY * k` seconds (5 after
the first failure, 10 after the second); failing twice and succeeding on the
third attempt returns the successful value; a third failure propagates with
no further sleep. -/
theorem claim_C3 (vd : Nat → List (Option ℚ)) (post : Nat → Except String Unit)
    (e1 e2 e3 : String) (v : ℚ) :
    ((fetch_vix vd).attemptsMade ≤ 3 ∧ (send_telegram post).attemptsMade ≤ 3)
    ∧ ((fetch_vix vd).sleeps =
        (List.range ((fetch_vix vd).attemptsMade - 1)).map
          (fun k => RETRY_DELAY * (k + 1))
      ∧ (send_telegram post).sleeps =
        (List.range ((send_telegram post).attemptsMade - 1)).map
          (fun k => RETRY_DELAY * (k + 1)))
    ∧ (fetchVixAttempt (vd 1) = Except.error e1 →
        fetchVixAttempt (vd 2) = Except.error e2 →
        fetchVixAttempt (vd 3) = Except.ok v →
        fetch_vix vd = ⟨Except.ok v, [5, 10], 3⟩)
    ∧ (fetchVixAttempt (vd 1) = Except.error e1 →
        fetchVixAttempt (vd 2) = Except.error e2 →
        fetchVixAttempt (vd 3) = Except.error e3 →
        fetch_vix vd = ⟨Except.error e3, [5, 10], 3⟩)
    ∧ (post 1 = Except.error e1 → post 2 = Except.error e2 →
        post 3 = Except.ok () →
        send_telegram post = ⟨Except.ok (), [5, 10], 3⟩)
    ∧ (post 1 = Except.error e1 → post 2 = Except.error e2 →
        post 3 = Except.error e3 →
        send_telegram post = ⟨Except.error e3, [5, 10], 3⟩) := by
  refine ⟨⟨?_, ?_⟩, ⟨?_, ?_⟩, ?_, ?_, ?_, ?_⟩
  · exact (retryCall_shape _).1
  · exact (retryCall_shape _).1
  · exact (retryCall_shape _).2
  · exact (retryCall_shape _).2
  · intro h1 h2 h3; exact retryCall_ok3 _ e1 e2 v h1 h2 h3
  · intro h1 h2 h3; exact retryCall_error _ e1 e2 e3 h1 h2 h3
  · intro h1 h2 h3; exact retryCall_ok3 _ e1 e2 () h1 h2 h3
  · intro h1 h2 h3; exact retryCall_error _ e1 e2 e3 h1 h2 h3

/-- A VIX download that fails on attempts 1 and 2 and succeeds on attempt 3. -/
def vixDataW : Nat → List (Option ℚ) := fun k => if k = 3 then [some 20] else []

/-- A Telegram endpoint that is down on every attempt. -/
def postW : Nat → Except String Unit := fun _ => Except.error "telegram down"

/-- Witness for C3: a fetch that succeeds on the third attempt after sleeping
5 then 10 seconds, and a send whose third failure propagates after the same
two sleeps. -/
theorem claim_C3_witness :
    fetch_vix vixDataW = ⟨Except.ok 20, [5, 10], 3⟩
    ∧ send_telegram postW = ⟨Except.error "telegram down", [5, 10], 3⟩ :=
  ⟨(claim_C3 vixDataW postW "No data returned for ^VIX"
      "No data returned for ^VIX" "telegram down" 20).2.2.1 rfl rfl rfl,
   (claim_C3 vixDataW postW "telegram down" "telegram down"
      "telegram down" 20).2.2.2.2.2 rfl rfl rfl⟩

lemma fetchVstoxxAttempt_pos (resp : StooqResponse) (v : ℚ)
    (h : fetchVstoxxAttempt resp = Except.ok v) : 0 < v := by
  unfold fetchVstoxxAttempt at h
  split at h
  · exact absurd h (by simp)
  · split at h
    · exact absurd h (by simp)
    · split at h
      next hl => exact absurd h (by simp)
      next c hl =>
        simp only [Except.ok.injEq] at h
        subst h
        have hc := List.mem_of_getLast?_eq_some hl
        rcases List.mem_filterMap.mp hc with ⟨row, _, hf⟩
        cases hcl : row.close with
        | none =>
          rw [hcl] at hf
          have hf' : (none : Option ℚ) = some c := hf
          exact absurd hf' (by simp)
        | some c0 =>
          rw [hcl] at hf
          have hf' : (if 0 < c0 then some c0 else none) = some c := hf
          by_cases hpos : 0 < c0
          · rw [if_pos hpos] at hf'
            rw [← Option.some.inj hf']
            exact hpos
          · rw [if_neg hpos] at hf'; exact absurd hf' (by simp)

/-- C5 counterexample: the VIX fetch does not discard non-positive closes —
on a frame whose only close is `-1`, `fetch_vix` returns `-1`, which is not
strictly positive. -/
theorem claim_C5_counterexample :
    (fetch_vix (fun _ => [some (-1)])).result = Except.ok (-1)
    ∧ ¬(0 < (-1 : ℚ)) :=
  ⟨rfl, by decide⟩

/-- C5 (amended): only the vStoxx fetch discards missing and non-positive
closes before selecting the last remaining one, so any value it returns is
strictly positive; the VIX fetch discards only missing closes and returns
the last remaining close, whatever its sign. -/
theorem claim_C5_amended :
    (∀ (data : Nat → StooqResponse) (v : ℚ),
        (fetch_vstoxx data).result = Except.ok v → 0 < v)
    ∧ (∀ (closes : List (Option ℚ)) (v : ℚ),
        fetchVixAttempt closes = Except.ok v →
          (closes.filterMap id).getLast? = some v) := by
  constructor
  · intro data v h
    obtain ⟨k, hk⟩ := retryCall_ok_exists _ v h
    exact fetchVstoxxAttempt_pos (data k) v hk
  · intro closes v h
    unfold fetchVixAttempt at h
    split at h
    · exact absurd h (by simp)
    · split at h
      next hl => exact absurd h (by simp)
      next w hl =>
        simp only [Except.ok.injEq] at h
        rw [hl, h]

/-- A healthy stooq response with a single positive close. -/
def stooqRespW : StooqResponse := ⟨true, true, [⟨"2025-01-02", some 21⟩]⟩

/-- Witness for C5 (amended) at a vStoxx fetch returning 21 and a VIX frame
whose only close is 21. -/
theorem claim_C5_witness :
    (0 : ℚ) < 21 ∧ ([some (21 : ℚ)].filterMap id).getLast? = some 21 :=
  ⟨claim_C5_amended.1 (fun _ => stooqRespW) 21 rfl,
   claim_C5_amended.2 [some 21] 21 rfl⟩

/-- C4 counterexample: `build_message` reads the current date from the
system clock inside the formatter — two calls with identical
`(vix, vstoxx, result)` arguments but different clock dates produce
different strings, so the displayed date is not caller-supplied. -/
theorem claim_C4_counterexample :
    build_message 15 18 ⟨3, false, true, true⟩ "Wednesday, 01 Jan 2025"
      ≠ build_message 15 18 ⟨3, false, true, true⟩ "Thursday, 02 Jan 2025" := by
  decide

/-- C4 (amended): `build_message` takes only `(vix, vstoxx, result)` and
reads the current date from the system clock internally; it is deterministic
given those arguments and the clock's date — equal arguments and an equal
clock date give the same string — and the displayed date line is exactly
the clock-read date. -/
theorem claim_C4_amended (v v' x x' : ℚ) (r r' : Verdict) (d d' : String)
    (hv : v = v') (hx : x = x') (hr : r = r') (hd : d = d') :
    build_message v x r d = build_message v' x' r' d'
    ∧ (buildMessageLines v x r d).get? 1 = some ("📅 " ++ d) := by
  subst hv; subst hx; subst hr; subst hd
  exact ⟨rfl, rfl⟩

/-- Witness for C4 (amended) at concrete arguments and clock date. -/
theorem claim_C4_witness :
    build_message 15 18 ⟨3, false, true, true⟩ "Friday, 03 Jan 2025"
      = build_message 15 18 ⟨3, false, true, true⟩ "Friday, 03 Jan 2025"
    ∧ (buildMessageLines 15 18 ⟨3, false, true, true⟩ "Friday, 03 Jan 2025").get? 1
      = some ("📅 " ++ "Friday, 03 Jan 2025") :=
  claim_C4_amended 15 15 18 18 ⟨3, false, true, true⟩ ⟨3, false, true, true⟩
    "Friday, 03 Jan 2025" "Friday, 03 Jan 2025" rfl rfl rfl rfl

/-! ### Helper lemmas: the orchestrator's branches -/

lemma main_misconfigured (env : Env)
    (h : truthy env.bot_token = false ∨ truthy env.chat_id = false) :
    main env = (2, []) := by
  unfold main; rw [if_pos h]

lemma main_vix_error (env : Env) (e : String)
    (hb : truthy env.bot_token = true) (hc : truthy env.chat_id = true)
    (hv : (fetch_vix env.vixData).result = Except.error e) :
    main env =
      (1, attemptActions NetAction.vixAttempt (fetch_vix env.vixData).attemptsMade
        ++ errorNotifyActions env e) := by
  unfold main
  rw [if_neg (by simp [hb, hc])]
  simp only [hv]

lemma main_vstoxx_error (env : Env) (v : ℚ) (e : String)
    (hb : truthy env.bot_token = true) (hc : truthy env.chat_id = true)
    (hv : (fetch_vix env.vixData).result = Except.ok v)
    (hs : (fetch_vstoxx env.vstoxxData).result = Except.error e) :
    main env =
      (1, attemptActions NetAction.vixAttempt (fetch_vix env.vixData).attemptsMade
        ++ (attemptActions NetAction.vstoxxAttempt (fetch_vstoxx env.vstoxxData).attemptsMade
          ++ errorNotifyActions env e)) := by
  unfold main
  rw [if_neg (by simp [hb, hc])]
  simp only [hv, hs]

lemma main_send_error (env : Env) (v w : ℚ) (e : String)
    (hb : truthy env.bot_token = true) (hc : truthy env.chat_id = true)
    (hv : (fetch_vix env.vixData).result = Except.ok v)
    (hw : (fetch_vstoxx env.vstoxxData).result = Except.ok w)
    (hs : (send_telegram (env.sendOutcome
        (build_message v w (evaluate v w env.today) env.todayStr))).result
      = Except.error e) :
    main env =
      (1, attemptActions NetAction.vixAttempt (fetch_vix env.vixData).attemptsMade
        ++ (attemptActions NetAction.vstoxxAttempt (fetch_vstoxx env.vstoxxData).attemptsMade
          ++ (attemptActions
                (NetAction.telegramPost
                  (build_message v w (evaluate v w env.today) env.todayStr))
                (send_telegram (env.sendOutcome
                  (build_message v w (evaluate v w env.today) env.todayStr))).attemptsMade
            ++ errorNotifyActions env e))) := by
  unfold main
  rw [if_neg (by simp [hb, hc])]
  simp only [hv, hw, hs]

/-- A run where credentials are fine, both fetches succeed first try, and
every Telegram post fails. -/
def envNotifyFail : Env :=
  ⟨some "token", some "chat", fun _ => [some 15],
   fun _ => ⟨true, true, [⟨"2025-01-02", some 18⟩]⟩,
   fun _ _ => Except.error "telegram down", ⟨3⟩, "Friday, 03 Jan 2025"⟩

/-- C6 counterexample: when notification delivery exhausts its retries, the
run does exit non-zero, but it first makes a further error-notification
attempt — the trace contains a Telegram post of the monitor-error text after
the failed message posts, contradicting "without making any further
error-notification attempt". -/
theorem claim_C6_counterexample :
    (main envNotifyFail).1 = 1
    ∧ NetAction.telegramPost (monitorErrorText "telegram down") 1
        ∈ (main envNotifyFail).2 := by
  have hm := main_send_error envNotifyFail 15 18 "telegram down" rfl rfl rfl rfl rfl
  rw [hm]
  constructor
  · rfl
  · have hsend : send_telegram (envNotifyFail.sendOutcome (monitorErrorText "telegram down"))
        = ⟨Except.error "telegram down", [5, 10], 3⟩ :=
      retryCall_error _ "telegram down" "telegram down" "telegram down" rfl rfl rfl
    have hlist : errorNotifyActions envNotifyFail "telegram down"
        = [NetAction.telegramPost (monitorErrorText "telegram down") 1,
           NetAction.telegramPost (monitorErrorText "telegram down") 2,
           NetAction.telegramPost (monitorErrorText "telegram down") 3] := by
      unfold errorNotifyActions
      rw [hsend]
      rfl
    rw [hlist]
    simp [List.mem_append]

/-- C6 (amended): when notification delivery fails after exhausting its
retries, the run terminates in the Failed state (exit code 1) after making
one further best-effort error-notification attempt, whose own outcome is
ignored. -/
theorem claim_C6_amended (env : Env) (v w : ℚ) (e : String)
    (hb : truthy env.bot_token = true) (hc : truthy env.chat_id = true)
    (hv : (fetch_vix env.vixData).result = Except.ok v)
    (hw : (fetch_vstoxx env.vstoxxData).result = Except.ok w)
    (hs : (send_telegram (env.sendOutcome
        (build_message v w (evaluate v w env.today) env.todayStr))).result
      = Except.error e) :
    (main env).1 = 1
    ∧ (main env).2 =
        attemptActions NetAction.vixAttempt (fetch_vix env.vixData).attemptsMade
        ++ (attemptActions NetAction.vstoxxAttempt (fetch_vstoxx env.vstoxxData).attemptsMade
          ++ (attemptActions
                (NetAction.telegramPost
                  (build_message v w (evaluate v w env.today) env.todayStr))
                (send_telegram (env.sendOutcome
                  (build_message v w (evaluate v w env.today) env.todayStr))).attemptsMade
            ++ errorNotifyActions env e)) := by
  have hm := main_send_error env v w e hb hc hv hw hs
  rw [hm]
  exact ⟨rfl, rfl⟩

/-- Witness for C6 (amended) on `envNotifyFail`. -/
theorem claim_C6_witness :
    (main envNotifyFail).1 = 1
    ∧ (main envNotifyFail).2 =
        attemptActions NetAction.vixAttempt (fetch_vix envNotifyFail.vixData).attemptsMade
        ++ (attemptActions NetAction.vstoxxAttempt
              (fetch_vstoxx envNotifyFail.vstoxxData).attemptsMade
          ++ (attemptActions
                (NetAction.telegramPost
                  (build_message 15 18 (evaluate 15 18 envNotifyFail.today)
                    envNotifyFail.todayStr))
                (send_telegram (envNotifyFail.sendOutcome
                  (build_message 15 18 (evaluate 15 18 envNotifyFail.today)
                    envNotifyFail.todayStr))).attemptsMade
            ++ errorNotifyActions envNotifyFail "telegram down")) :=
  claim_C6_amended envNotifyFail 15 18 "telegram down" rfl rfl rfl rfl rfl

/-- An environment missing the bot-token secret. -/
def envNoCreds : Env :=
  ⟨none, some "chat", fun _ => [], fun _ => ⟨false, false, []⟩,
   fun _ _ => Except.error "down", ⟨1⟩, "Wednesday, 01 Jan 2025"⟩

/-- C7: with either required secret absent (or empty), the run makes no
network call of any kind and exits with code 2, distinct from the success
exit 0 and the runtime-failure exit 1. -/
theorem claim_C7 (env : Env)
    (h : truthy env.bot_token = false ∨ truthy env.chat_id = false) :
    main env = (2, []) ∧ (main env).1 ≠ 0 ∧ (main env).1 ≠ 1 := by
  have hm := main_misconfigured env h
  exact ⟨hm, by rw [hm]; decide, by rw [hm]; decide⟩

/-- Witness for C7 on an environment with no bot token. -/
theorem claim_C7_witness :
    main envNoCreds = (2, [])
    ∧ (main envNoCreds).1 ≠ 0 ∧ (main envNoCreds).1 ≠ 1 :=
  claim_C7 envNoCreds (Or.inl rfl)

/-- C8: any fetch failure (the only fallible step among fetch/decide/format,
the latter two being total) leads to exit code 1 with the trace ending in
the posts of exactly one best-effort error notification; the exit code is 1
whatever the outcome of that secondary notification (nothing constrains
`env.sendOutcome` on the error text), so its failure is swallowed. -/
theorem claim_C8 (env : Env) (e : String)
    (hb : truthy env.bot_token = true) (hc : truthy env.chat_id = true)
    (hfail : (fetch_vix env.vixData).result = Except.error e
      ∨ ((∃ v, (fetch_vix env.vixData).result = Except.ok v)
          ∧ (fetch_vstoxx env.vstoxxData).result = Except.error e)) :
    (main env).1 = 1
    ∧ ((main env).2 =
        attemptActions NetAction.vixAttempt (fetch_vix env.vixData).attemptsMade
          ++ errorNotifyActions env e
      ∨ (main env).2 =
        attemptActions NetAction.vixAttempt (fetch_vix env.vixData).attemptsMade
          ++ (attemptActions NetAction.vstoxxAttempt
                (fetch_vstoxx env.vstoxxData).attemptsMade
            ++ errorNotifyActions env e)) := by
  rcases hfail with hv | ⟨⟨v, hv⟩, hs⟩
  · have hm := main_vix_error env e hb hc hv
    rw [hm]
    exact ⟨rfl, Or.inl rfl⟩
  · have hm := main_vstoxx_error env v e hb hc hv hs
    rw [hm]
    exact ⟨rfl, Or.inr rfl⟩

/-- A run whose VIX downloads are empty on every attempt and whose Telegram
endpoint is down, exercising the swallowed secondary failure. -/
def envVixDown : Env :=
  ⟨some "token", some "chat", fun _ => [],
   fun _ => ⟨true, true, [⟨"2025-01-02", some 18⟩]⟩,
   fun _ _ => Except.error "telegram down", ⟨3⟩, "Friday, 03 Jan 2025"⟩

/-- Witness for C8 on `envVixDown`. -/
theorem claim_C8_witness :
    (main envVixDown).1 = 1
    ∧ ((main envVixDown).2 =
        attemptActions NetAction.vixAttempt (fetch_vix envVixDown.vixData).attemptsMade
          ++ errorNotifyActions envVixDown "No data returned for ^VIX"
      ∨ (main envVixDown).2 =
        attemptActions NetAction.vixAttempt (fetch_vix envVixDown.vixData).attemptsMade
          ++ (attemptActions NetAction.vstoxxAttempt
                (fetch_vstoxx envVixDown.vstoxxData).attemptsMade
            ++ errorNotifyActions envVixDown "No data returned for ^VIX")) :=
  claim_C8 envVixDown "No data returned for ^VIX" rfl rfl (Or.inl rfl)

end VixMonitor
